import Mathlib

/-!
Verification development for the course-materials RAG backend.

The orchestrator (`AIGenerator.generate_response`, `_execute_tool_round`,
`_handle_tool_execution` in `backend/ai_generator.py`) is embedded shallowly:
the Anthropic client is replaced by a script `Nat → Except String ModelResponse`
giving the outcome of each successive `client.messages.create` call (an
exception message or a response), and the tool manager by a function
`String → String → Except String String` from (tool name, input payload) to a
result string or a raised exception message.  The run produces a `Trace`
recording, per model call, whether tool definitions were attached, the tool
executions grouped by round, the conversation messages built up, and the
final outcome (`Except.error` = an exception propagated to the caller,
`Except.ok` = the returned answer string).

The vector store (`vector_store.py`) and the search tools / tool manager
(`search_tools.py`) are not part of the sources; they are modelled from the
specification where a claim needs them (see the doc comments starting
`Modelled from the spec:`).
-/

namespace RagCore

/-- A content block of a model response.  Mirrors the duck-typed blocks of
`ai_generator.py`: the code inspects `.type` and reads `.text` on text blocks
and `.name`, `.input`, `.id` on tool-use blocks.  The tool input payload is
kept opaque as a string. -/
structure ContentBlock where
  type : String
  text : String
  name : String
  input : String
  id : String
deriving DecidableEq, Repr, Inhabited

/-- A model response: `stop_reason` and the ordered content blocks
(`response.stop_reason`, `response.content` in `ai_generator.py`). -/
structure ModelResponse where
  stop_reason : String
  content : List ContentBlock
deriving DecidableEq, Repr, Inhabited

/-- A tool result entry as built in `_execute_tool_round`
(`{"type": "tool_result", "tool_use_id": ..., "content": ...}`). -/
structure ToolResult where
  tool_use_id : String
  content : String
deriving DecidableEq, Repr, Inhabited

/-- A conversation message.  The query is a plain user turn; the model's
tool-requesting turn is appended with role assistant; a round's tool results
are appended as a single user turn carrying the result list. -/
inductive Message
  | user (query : String)
  | assistant (content : List ContentBlock)
  | toolResults (results : List ToolResult)
deriving DecidableEq, Repr, Inhabited

/-- The observable trace of one `generate_response` run: per model call the
flag whether tool definitions were attached (in call order), the tool
executions grouped into rounds (each entry is one round's `(name, input)`
pairs in execution order), the conversation messages as built, and the final
outcome (`Except.error e` = exception `e` propagated out of
`generate_response`; `Except.ok s` = answer string `s` returned). -/
structure Trace where
  calls : List Bool
  rounds : List (List (String × String))
  messages : List Message
  result : Except String String
deriving Repr, Inhabited

/-- The outcome of each successive `client.messages.create` call: call `n`
(0-based) either raises (error message) or yields a response. -/
def ModelScript := Nat → Except String ModelResponse

/-- The tool manager's `execute_tool`: from tool name and input payload to a
result string, or a raised exception message. -/
def ToolMgr := String → String → Except String String

/-- `response.content[0].text`: the text of the first content block, or an
index error when `content` is empty (Python would raise). -/
def headText (r : ModelResponse) : Except String String :=
  match r.content with
  | [] => Except.error "IndexError: content is empty"
  | cb :: _ => Except.ok cb.text

/-- The tool-use blocks of a response, in emission order
(the blocks with `content_block.type == "tool_use"`). -/
def toolUseBlocks (r : ModelResponse) : List ContentBlock :=
  r.content.filter (fun cb => cb.type = "tool_use")

/-- One block's execution in `_execute_tool_round`: run the tool manager;
a raised exception is converted to the result string
`"Tool execution failed: " ++ msg`.  Either way the entry is tagged with the
block's call id. -/
def execBlock (tm : ToolMgr) (cb : ContentBlock) : ToolResult :=
  match tm cb.name cb.input with
  | Except.ok r => { tool_use_id := cb.id, content := r }
  | Except.error e => { tool_use_id := cb.id, content := "Tool execution failed: " ++ e }

/-- `AIGenerator._execute_tool_round`: execute every tool-use block of the
response in order, collecting one tagged result per block; returns `none`
when no tool-use block was found (`tool_results if tool_results else None`). -/
def execute_tool_round (tm : ToolMgr) (r : ModelResponse) : Option (List ToolResult) :=
  let tool_results :=
    r.content.filterMap (fun cb =>
      if cb.type = "tool_use" then some (execBlock tm cb) else none)
  if tool_results = [] then none else some tool_results

/-- The `(name, input)` pairs submitted to the tool manager in one round, in
execution order. -/
def roundExecs (r : ModelResponse) : List (String × String) :=
  (toolUseBlocks r).map (fun cb => (cb.name, cb.input))

/-- The final model call of `_handle_tool_execution` (lines 214-222): made
with no tool definitions attached and NOT wrapped in try/except, so a raised
exception propagates; otherwise `final_response.content[0].text` is
returned. -/
def finalCall (script : ModelScript) (callIdx : Nat) (messages : List Message)
    (calls : List Bool) (rounds : List (List (String × String))) : Trace :=
  match script callIdx with
  | Except.error e =>
      { calls := calls ++ [false], rounds := rounds, messages := messages,
        result := Except.error e }
  | Except.ok resp =>
      { calls := calls ++ [false], rounds := rounds, messages := messages,
        result := headText resp }

/-- The round loop of `_handle_tool_execution`
(`while round_count < max_rounds and current_response.stop_reason == "tool_use"`).
`fuel` is `max_rounds - round_count` (so the loop guard `round_count <
max_rounds` is `fuel ≠ 0`, and the post-increment break `round_count >=
max_rounds` is `fuel = 1`); `roundCount` is carried for the error-text of a
caught in-loop model-call failure; `callIdx` is the index of the next model
call in the script. -/
def toolLoop (tm : ToolMgr) (script : ModelScript) :
    Nat → Nat → Nat → List Message → List Bool → List (List (String × String)) →
    ModelResponse → Trace
  | 0, _, callIdx, messages, calls, rounds, _ =>
      finalCall script callIdx messages calls rounds
  | fuel + 1, roundCount, callIdx, messages, calls, rounds, current =>
      if current.stop_reason = "tool_use" then
        let rc := roundCount + 1
        let messages := messages ++ [Message.assistant current.content]
        match execute_tool_round tm current with
        | none =>
            { calls := calls, rounds := rounds, messages := messages,
              result := Except.ok "I encountered an issue while using the available tools." }
        | some tool_results =>
            let messages := messages ++ [Message.toolResults tool_results]
            let rounds := rounds ++ [roundExecs current]
            if fuel = 0 then
              finalCall script callIdx messages calls rounds
            else
              let calls := calls ++ [true]
              match script callIdx with
              | Except.error e =>
                  { calls := calls, rounds := rounds, messages := messages,
                    result := Except.ok ("Error during tool execution round "
                      ++ toString rc ++ ": " ++ e) }
              | Except.ok next =>
                  if next.stop_reason ≠ "tool_use" then
                    { calls := calls, rounds := rounds, messages := messages,
                      result := headText next }
                  else
                    toolLoop tm script fuel rc (callIdx + 1) messages calls rounds next
      else
        finalCall script callIdx messages calls rounds

/-- `AIGenerator._handle_tool_execution`: conversation state starts with the
single user query turn; `max_rounds = 2`; the loop is entered with the
initial tool-requesting response, the first model call already made (with
tool definitions attached iff `tools`) and recorded.  In-loop continuation
calls always carry a tools key (`base_params.get("tools", [])`), recorded as
`true`. -/
def handle_tool_execution (tm : ToolMgr) (script : ModelScript) (tools : Bool)
    (query : String) (initial : ModelResponse) : Trace :=
  toolLoop tm script 2 0 1 [Message.user query] [tools] [] initial

/-- `AIGenerator.generate_response`: make the first model call (tools
attached iff a non-empty tool list was passed); dispatch to the tool loop
only when the response's stop reason is `"tool_use"` AND a tool manager was
given; otherwise return `response.content[0].text`.  A failure of this very
first call propagates (it is not wrapped in try/except). -/
def generate_response (tools : Bool) (hasToolManager : Bool) (tm : ToolMgr)
    (script : ModelScript) (query : String) : Trace :=
  match script 0 with
  | Except.error e =>
      { calls := [tools], rounds := [], messages := [Message.user query],
        result := Except.error e }
  | Except.ok response =>
      if response.stop_reason = "tool_use" ∧ hasToolManager then
        handle_tool_execution tm script tools query response
      else
        { calls := [tools], rounds := [], messages := [Message.user query],
          result := headText response }

/-! ## Vector store (modelled from the spec)

`vector_store.py` is not among the sources (only its tests are), so the
store is modelled from the specification.  Embeddings are abstracted into a
distance oracle: `distT query title` is the vector distance between the
embedded query and an embedded catalog title, `distD query content` between
the embedded query and an embedded chunk (lower = more similar). -/

/-- Per-document metadata of a search hit (`{course_title, lesson_number}`). -/
structure Meta where
  course_title : String
  lesson_number : Option Nat
deriving DecidableEq, Repr, Inhabited

/-- A content-collection record (`CourseChunk`). -/
structure CourseChunk where
  course_title : String
  lesson_number : Option Nat
  content : String
  chunk_index : Nat
deriving DecidableEq, Repr, Inhabited

/-- `SearchResults`: parallel sequences of documents, metadata and distances,
plus an optional error string. -/
structure SearchResults where
  documents : List String
  metadata : List Meta
  distances : List Nat
  error : Option String
deriving DecidableEq, Repr, Inhabited

/-- Modelled from the spec: `VectorStore._resolve_course_name`
(`vector_store.py` missing from the sources).  Embeds the input and returns
the nearest catalog title by vector distance — no similarity threshold, the
nearest neighbor is always accepted; returns `none` only when the catalog is
empty. -/
def resolve_course_name (distT : String → String → Nat) (catalog : List String)
    (q : String) : Option String :=
  match catalog with
  | [] => none
  | t :: ts => some (ts.foldl (fun best u => if distT q u < distT q best then u else best) t)

/-- The conjunction of the optional equality filters on a chunk's metadata
(course title and lesson number are ANDed; both optional). -/
def chunkMatches (title : Option String) (lesson : Option Nat) (c : CourseChunk) : Bool :=
  (match title with
   | none => true
   | some t => c.course_title = t)
  && (match lesson with
      | none => true
      | some n => c.lesson_number = some n)

/-- Insert into a list of key-tagged entries, keeping keys ascending. -/
def insertByKey (p : Nat × CourseChunk) : List (Nat × CourseChunk) → List (Nat × CourseChunk)
  | [] => [p]
  | q :: qs => if p.1 ≤ q.1 then p :: q :: qs else q :: insertByKey p qs

/-- Sort key-tagged entries by ascending key (ascending distance,
best match first). -/
def sortByKey : List (Nat × CourseChunk) → List (Nat × CourseChunk)
  | [] => []
  | p :: ps => insertByKey p (sortByKey ps)

/-- Modelled from the spec: the similarity query on the content collection —
filter by the resolved title and/or lesson number, rank by ascending
distance, take the limit, and project the three parallel sequences. -/
def runQuery (distD : String → String → Nat) (store : List CourseChunk)
    (query : String) (titleFilter : Option String) (lesson : Option Nat)
    (limit : Nat) : SearchResults :=
  let hits := (store.filter (chunkMatches titleFilter lesson)).map
    (fun c => (distD query c.content, c))
  let ranked := (sortByKey hits).take limit
  { documents := ranked.map (fun p => p.2.content),
    metadata := ranked.map (fun p =>
      ({ course_title := p.2.course_title, lesson_number := p.2.lesson_number } : Meta)),
    distances := ranked.map (fun p => p.1),
    error := none }

/-- Modelled from the spec: `VectorStore.search` (`vector_store.py` missing
from the sources).  If `course_name` is given it is resolved first; a
resolution failure produces `SearchResults` with
`error = "No course found matching '<name>'"` and empty sequences — a result
state, not an exception.  Otherwise the filtered similarity search runs. -/
def search (distT distD : String → String → Nat) (catalog : List String)
    (store : List CourseChunk) (query : String) (course_name : Option String)
    (lesson_number : Option Nat) (limit : Nat) : SearchResults :=
  match course_name with
  | some name =>
      match resolve_course_name distT catalog name with
      | none =>
          { documents := [], metadata := [], distances := [],
            error := some ("No course found matching '" ++ name ++ "'") }
      | some title => runQuery distD store query (some title) lesson_number limit
  | none => runQuery distD store query none lesson_number limit

/-! ## Search tools and tool registry (modelled from the spec)

`search_tools.py` is not among the sources (only its tests are); the Content
Search Tool's execute and the Tool Manager's source aggregation are modelled
from the specification.  The store's link lookups are abstracted as oracles
`gll` (`get_lesson_link`) and `gcl` (`get_course_link`). -/

/-- A provenance record (`{"text": ..., "link": ...}`). -/
structure Source where
  text : String
  link : Option String
deriving DecidableEq, Repr, Inhabited

/-- Modelled from the spec: the Source record built for one search hit —
label `"<course> - Lesson <n>"` with the lesson link when a lesson number is
present, else the bare course title with the course link. -/
def buildSource (gll : String → Nat → Option String) (gcl : String → Option String)
    (m : Meta) : Source :=
  match m.lesson_number with
  | some n =>
      { text := m.course_title ++ " - Lesson " ++ toString n, link := gll m.course_title n }
  | none => { text := m.course_title, link := gcl m.course_title }

/-- The `[Course Title - Lesson N]` header of a formatted hit (the lesson
segment is omitted when the lesson number is absent). -/
def resultHeader (m : Meta) : String :=
  match m.lesson_number with
  | some n => "[" ++ m.course_title ++ " - Lesson " ++ toString n ++ "]"
  | none => "[" ++ m.course_title ++ "]"

/-- The human-readable note of the active course/lesson filter, appended to
the empty-result sentinel. -/
def filterNote (course_name : Option String) (lesson_number : Option Nat) : String :=
  (match course_name with
   | none => ""
   | some c => " in course '" ++ c ++ "'")
  ++ (match lesson_number with
      | none => ""
      | some n => " in lesson " ++ toString n)

/-- Modelled from the spec: `CourseSearchTool.execute` (`search_tools.py`
missing from the sources), applied to the `SearchResults` the store returned.
On error the error text is returned verbatim; on empty success a fixed
"no relevant content found" sentinel with the filter note; on non-empty
success each document is formatted under its header and, in parallel and in
the same order, one Source per result is built via the link oracles and
stored as the tool's new last-sources.  The pair returned is
(result text, last-sources after the call), with `prev` the last-sources
before the call. -/
def CourseSearchTool_execute (gll : String → Nat → Option String)
    (gcl : String → Option String) (prev : List Source)
    (course_name : Option String) (lesson_number : Option Nat)
    (results : SearchResults) : String × List Source :=
  match results.error with
  | some e => (e, prev)
  | none =>
      if results.documents = [] then
        ("No relevant content found" ++ filterNote course_name lesson_number ++ ".", prev)
      else
        (String.intercalate "\n\n"
          ((results.documents.zip results.metadata).map
            (fun p => resultHeader p.2 ++ "\n" ++ p.1)),
         results.metadata.map (buildSource gll gcl))

/-- A registered tool's mutable state, as far as source aggregation is
concerned: its name and its current `last_sources`. -/
structure ToolState where
  name : String
  last_sources : List Source
deriving DecidableEq, Repr, Inhabited

/-- Modelled from the spec: `ToolManager.get_last_sources` (`search_tools.py`
missing from the sources) — concatenates every registered tool's current
sources, in registry order. -/
def get_last_sources (tools : List ToolState) : List Source :=
  tools.foldl (fun acc t => acc ++ t.last_sources) []

/-- Modelled from the spec: `ToolManager.reset_sources` — clears every
registered tool's source list. -/
def reset_sources (tools : List ToolState) : List ToolState :=
  tools.map (fun t => { t with last_sources := [] })

/-! ## Concrete instances used by witnesses and counterexamples -/

/-- A degenerate distance oracle for concrete runs. -/
def dEx : String → String → Nat := fun _ _ => 0

/-- A tool manager whose every execution succeeds. -/
def tmOk : ToolMgr := fun _ _ => Except.ok "Tool result"

/-- A tool manager whose every execution raises `"boom"`. -/
def tmRaise : ToolMgr := fun _ _ => Except.error "boom"

/-- A concrete tool-use content block. -/
def exToolBlock : ContentBlock :=
  { type := "tool_use", text := "", name := "search_course_content",
    input := "query=test", id := "tool_1" }

/-- A model response that requests tool use with one tool-use block. -/
def exToolResp : ModelResponse :=
  { stop_reason := "tool_use", content := [exToolBlock] }

/-- A model response flagged `tool_use` whose content holds no tool-use
block (one plain text block only). -/
def exNoBlockResp : ModelResponse :=
  { stop_reason := "tool_use",
    content := [{ type := "text", text := "thinking", name := "", input := "", id := "" }] }

/-- A script on which the model always requests tool use. -/
def exScript : ModelScript := fun _ => Except.ok exToolResp

/-- A script on which the model always answers with the block-less
tool-use-flagged response. -/
def exNoBlockScript : ModelScript := fun _ => Except.ok exNoBlockResp

/-- A script whose first two calls request tool use and whose third call
(the forced final call) raises `"boom"`. -/
def c2Script : ModelScript :=
  fun n => if n < 2 then Except.ok exToolResp else Except.error "boom"

/-- A script whose first call requests tool use and whose second call (the
in-loop continuation call) raises `"boom"`. -/
def c2LoopScript : ModelScript :=
  fun n => if n = 0 then Except.ok exToolResp else Except.error "boom"

/-- A script whose very first call raises `"boom"`. -/
def c2FirstScript : ModelScript := fun _ => Except.error "boom"

/-- Does `needle` occur at the start of `hay`? -/
def startsWithSeq : List Char → List Char → Bool
  | _, [] => true
  | [], _ :: _ => false
  | a :: as, b :: bs => a = b && startsWithSeq as bs

/-- Does `needle` occur contiguously anywhere in `hay`? -/
def containsSeq : List Char → List Char → Bool
  | [], needle => needle.isEmpty
  | a :: as, needle => startsWithSeq (a :: as) needle || containsSeq as needle

/-- Substring containment on strings. -/
def strContains (s sub : String) : Bool := containsSeq s.toList sub.toList

/-- Search-hit metadata with a lesson number, as in the source-tracking
test. -/
def exMetaA : Meta := { course_title := "Course A", lesson_number := some 1 }

/-- Search-hit metadata without a lesson number. -/
def exMetaB : Meta := { course_title := "Course B", lesson_number := none }

/-- A successful two-document search result. -/
def exResults : SearchResults :=
  { documents := ["Content 1", "Content 2"], metadata := [exMetaA, exMetaB],
    distances := [0, 1], error := none }

/-- A concrete lesson-link oracle. -/
def gllEx : String → Nat → Option String :=
  fun c n => if c = "Course A" ∧ n = 1 then some "lesson1-link" else none

/-- A concrete course-link oracle. -/
def gclEx : String → Option String :=
  fun c => if c = "Course B" then some "courseb-link" else none

/-- A concrete source record. -/
def exSrc1 : Source := { text := "Source 1", link := some "l1" }

/-- A second concrete source record. -/
def exSrc2 : Source := { text := "Source 2", link := none }

/-- A concrete two-tool registry state with one pending source each. -/
def exTools : List ToolState :=
  [{ name := "tool1", last_sources := [exSrc1] },
   { name := "tool2", last_sources := [exSrc2] }]

/-! ## Helper lemmas -/

theorem filterMap_ite_eq {α β : Type} (p : α → Prop) [DecidablePred p] (f : α → β)
    (l : List α) :
    (l.filterMap fun a => if p a then some (f a) else none)
      = (l.filter fun a => p a).map f := by
  induction l with
  | nil => rfl
  | cons a t ih => by_cases h : p a <;> simp [List.filterMap_cons, List.filter_cons, h, ih]

theorem execute_tool_round_eq (tm : ToolMgr) (r : ModelResponse) :
    execute_tool_round tm r =
      if toolUseBlocks r = [] then none
      else some ((toolUseBlocks r).map (execBlock tm)) := by
  unfold execute_tool_round toolUseBlocks
  rw [filterMap_ite_eq (fun cb => cb.type = "tool_use") (execBlock tm)]
  by_cases h : r.content.filter (fun cb => cb.type = "tool_use") = [] <;>
    simp [h, List.map_eq_nil_iff]

theorem finalCall_messages (script : ModelScript) (callIdx : Nat) (msgs : List Message)
    (calls : List Bool) (rounds : List (List (String × String))) :
    (finalCall script callIdx msgs calls rounds).messages = msgs := by
  unfold finalCall
  cases script callIdx <;> rfl

/-- The round loop only ever appends to the conversation it was given. -/
theorem toolLoop_messages_mono (tm : ToolMgr) (script : ModelScript) :
    ∀ (fuel roundCount callIdx : Nat) (msgs : List Message) (calls : List Bool)
      (rounds : List (List (String × String))) (current : ModelResponse),
      ∃ rest, (toolLoop tm script fuel roundCount callIdx msgs calls rounds current).messages
        = msgs ++ rest := by
  intro fuel
  induction fuel with
  | zero =>
      intro roundCount callIdx msgs calls rounds current
      exact ⟨[], by rw [toolLoop, finalCall_messages, List.append_nil]⟩
  | succ fuel ih =>
      intro roundCount callIdx msgs calls rounds current
      rw [toolLoop]
      by_cases h : current.stop_reason = "tool_use"
      · rw [if_pos h]
        cases he : execute_tool_round tm current with
        | none => exact ⟨[Message.assistant current.content], rfl⟩
        | some rs =>
            dsimp only
            by_cases hf : fuel = 0
            · rw [if_pos hf]
              exact ⟨[Message.assistant current.content, Message.toolResults rs], by
                rw [finalCall_messages]; simp⟩
            · rw [if_neg hf]
              cases hs : script callIdx with
              | error e =>
                  exact ⟨[Message.assistant current.content, Message.toolResults rs], by simp⟩
              | ok next =>
                  dsimp only
                  by_cases hn : next.stop_reason ≠ "tool_use"
                  · rw [if_pos hn]
                    exact ⟨[Message.assistant current.content, Message.toolResults rs],
                      by simp⟩
                  · rw [if_neg hn]
                    obtain ⟨r2, hr2⟩ := ih (roundCount + 1) (callIdx + 1)
                      (msgs ++ [Message.assistant current.content]
                        ++ [Message.toolResults rs])
                      (calls ++ [true]) (rounds ++ [roundExecs current]) next
                    refine ⟨[Message.assistant current.content, Message.toolResults rs]
                      ++ r2, ?_⟩
                    rw [hr2]; simp
      · rw [if_neg h, finalCall_messages]
        exact ⟨[], by rw [List.append_nil]⟩

/-- One unfolding of the round loop at positive fuel (for rewriting at
numeric literals). -/
theorem toolLoop_succ (tm : ToolMgr) (script : ModelScript) (fuel roundCount callIdx : Nat)
    (msgs : List Message) (calls : List Bool) (rounds : List (List (String × String)))
    (current : ModelResponse) :
    toolLoop tm script (fuel + 1) roundCount callIdx msgs calls rounds current
      = if current.stop_reason = "tool_use" then
          match execute_tool_round tm current with
          | none =>
              { calls := calls, rounds := rounds,
                messages := msgs ++ [Message.assistant current.content],
                result := Except.ok "I encountered an issue while using the available tools." }
          | some tool_results =>
              if fuel = 0 then
                finalCall script callIdx
                  (msgs ++ [Message.assistant current.content]
                    ++ [Message.toolResults tool_results])
                  calls (rounds ++ [roundExecs current])
              else
                match script callIdx with
                | Except.error e =>
                    { calls := calls ++ [true], rounds := rounds ++ [roundExecs current],
                      messages := msgs ++ [Message.assistant current.content]
                        ++ [Message.toolResults tool_results],
                      result := Except.ok ("Error during tool execution round "
                        ++ toString (roundCount + 1) ++ ": " ++ e) }
                | Except.ok next =>
                    if next.stop_reason ≠ "tool_use" then
                      { calls := calls ++ [true], rounds := rounds ++ [roundExecs current],
                        messages := msgs ++ [Message.assistant current.content]
                          ++ [Message.toolResults tool_results],
                        result := headText next }
                    else
                      toolLoop tm script fuel (roundCount + 1) (callIdx + 1)
                        (msgs ++ [Message.assistant current.content]
                          ++ [Message.toolResults tool_results])
                        (calls ++ [true]) (rounds ++ [roundExecs current]) next
        else finalCall script callIdx msgs calls rounds := rfl

/-- Reduction of a run whose first two model responses request tool use with
at least one tool-use block each: two rounds execute and the run ends in the
forced final call (call index 2) with no tools attached. -/
theorem genResp_two_rounds (tm : ToolMgr) (script : ModelScript) (query : String)
    (r0 r1 : ModelResponse)
    (hs0 : script 0 = Except.ok r0) (hstop0 : r0.stop_reason = "tool_use")
    (hb0 : toolUseBlocks r0 ≠ []) (hs1 : script 1 = Except.ok r1)
    (hstop1 : r1.stop_reason = "tool_use") (hb1 : toolUseBlocks r1 ≠ []) :
    generate_response true true tm script query =
      finalCall script 2
        [Message.user query, Message.assistant r0.content,
         Message.toolResults ((toolUseBlocks r0).map (execBlock tm)),
         Message.assistant r1.content,
         Message.toolResults ((toolUseBlocks r1).map (execBlock tm))]
        [true, true] [roundExecs r0, roundExecs r1] := by
  have he0 : execute_tool_round tm r0 = some ((toolUseBlocks r0).map (execBlock tm)) := by
    rw [execute_tool_round_eq, if_neg hb0]
  have he1 : execute_tool_round tm r1 = some ((toolUseBlocks r1).map (execBlock tm)) := by
    rw [execute_tool_round_eq, if_neg hb1]
  have hcond : r0.stop_reason = "tool_use" ∧ (true : Bool) = true := ⟨hstop0, rfl⟩
  unfold generate_response handle_tool_execution
  rw [hs0]
  dsimp only
  rw [if_pos hcond]
  rw [show (2 : Nat) = 1 + 1 from rfl, toolLoop_succ, if_pos hstop0, he0]
  dsimp only
  rw [if_neg (by decide : ¬(1 : Nat) = 0), hs1]
  dsimp only
  rw [if_neg (fun hn => hn hstop1)]
  rw [show (1 : Nat) = 0 + 1 from rfl, toolLoop_succ, if_pos hstop1, he1]
  dsimp only
  rw [if_pos rfl]
  rfl

/-! ## Claims -/

/-- C1: when every model response requests tool use (tool-use stop reason
with at least one tool-use block), `generate_response` with tools and a tool
manager makes exactly 3 model calls, executes tools in exactly 2 rounds, and
the 3rd call carries no tool definitions, its first block's text being
returned as the answer. -/
theorem c1_never_stops_three_calls (tm : ToolMgr) (script : ModelScript) (query : String)
    (h : ∀ n, ∃ r, script n = Except.ok r ∧ r.stop_reason = "tool_use"
      ∧ toolUseBlocks r ≠ []) :
    ∃ r0 r1 r2, script 0 = Except.ok r0 ∧ script 1 = Except.ok r1
      ∧ script 2 = Except.ok r2
      ∧ (generate_response true true tm script query).calls = [true, true, false]
      ∧ (generate_response true true tm script query).rounds
          = [roundExecs r0, roundExecs r1]
      ∧ (generate_response true true tm script query).result
          = Except.ok r2.content.headI.text := by
  obtain ⟨r0, hs0, hstop0, hb0⟩ := h 0
  obtain ⟨r1, hs1, hstop1, hb1⟩ := h 1
  obtain ⟨r2, hs2, hstop2, hb2⟩ := h 2
  have hc2 : r2.content ≠ [] := by
    intro hc
    exact hb2 (by simp [toolUseBlocks, hc])
  obtain ⟨cb, rest, hcb⟩ := List.exists_cons_of_ne_nil hc2
  have key := genResp_two_rounds tm script query r0 r1 hs0 hstop0 hb0 hs1 hstop1 hb1
  refine ⟨r0, r1, r2, hs0, hs1, hs2, ?_, ?_, ?_⟩
  · rw [key]; unfold finalCall; rw [hs2]; rfl
  · rw [key]; unfold finalCall; rw [hs2]
  · rw [key]; unfold finalCall; rw [hs2]
    dsimp only
    unfold headText
    rw [hcb]
    simp

/-- C1 witness: on the concrete always-tool-use script the run makes the
calls `[with tools, with tools, without tools]`, two tool rounds, and
returns the third response's first block text. -/
theorem c1_witness :
    ∃ r0 r1 r2, exScript 0 = Except.ok r0 ∧ exScript 1 = Except.ok r1
      ∧ exScript 2 = Except.ok r2
      ∧ (generate_response true true tmOk exScript "q").calls = [true, true, false]
      ∧ (generate_response true true tmOk exScript "q").rounds
          = [roundExecs r0, roundExecs r1]
      ∧ (generate_response true true tmOk exScript "q").result
          = Except.ok r2.content.headI.text :=
  c1_never_stops_three_calls tmOk exScript "q"
    (fun _ => ⟨exToolResp, rfl, rfl, by decide⟩)

/-- C2 counterexample: on a run whose forced final call (the 3rd model call,
made after the very first one) raises, `generate_response` propagates the
exception instead of returning an error-text answer — refuting the claim
that only a failure of the very first model call propagates. -/
theorem c2_counterexample :
    (generate_response true true tmOk c2Script "q").calls = [true, true, false]
    ∧ (generate_response true true tmOk c2Script "q").result = Except.error "boom" := by
  constructor <;> rfl

/-- C2 (amended): a failure of an in-loop continuation model call is caught
and surfaced as the error-text answer `"Error during tool execution round
<n>: <msg>"`; failures of the very first call and of the forced final
(no-tools) call propagate to the caller. -/
theorem c2_amended_error_containment (tm : ToolMgr) (query : String) :
    (∀ (script : ModelScript) (e : String) (tools hasTM : Bool),
       script 0 = Except.error e →
       (generate_response tools hasTM tm script query).result = Except.error e)
    ∧ (∀ (script : ModelScript) (r0 : ModelResponse) (e : String),
         script 0 = Except.ok r0 → r0.stop_reason = "tool_use" →
         toolUseBlocks r0 ≠ [] → script 1 = Except.error e →
         (generate_response true true tm script query).result
           = Except.ok ("Error during tool execution round 1: " ++ e))
    ∧ (∀ (script : ModelScript) (r0 r1 : ModelResponse) (e : String),
         script 0 = Except.ok r0 → r0.stop_reason = "tool_use" →
         toolUseBlocks r0 ≠ [] → script 1 = Except.ok r1 →
         r1.stop_reason = "tool_use" → toolUseBlocks r1 ≠ [] →
         script 2 = Except.error e →
         (generate_response true true tm script query).result = Except.error e) := by
  refine ⟨?_, ?_, ?_⟩
  · intro script e tools hasTM hs0
    unfold generate_response
    rw [hs0]
  · intro script r0 e hs0 hstop0 hb0 hs1
    have he0 : execute_tool_round tm r0 = some ((toolUseBlocks r0).map (execBlock tm)) := by
      rw [execute_tool_round_eq, if_neg hb0]
    have hcond : r0.stop_reason = "tool_use" ∧ (true : Bool) = true := ⟨hstop0, rfl⟩
    unfold generate_response handle_tool_execution
    rw [hs0]
    dsimp only
    rw [if_pos hcond]
    rw [show (2 : Nat) = 1 + 1 from rfl, toolLoop_succ, if_pos hstop0, he0]
    dsimp only
    rw [if_neg (by decide : ¬(1 : Nat) = 0), hs1]
    rfl
  · intro script r0 r1 e hs0 hstop0 hb0 hs1 hstop1 hb1 hs2
    rw [genResp_two_rounds tm script query r0 r1 hs0 hstop0 hb0 hs1 hstop1 hb1]
    unfold finalCall
    rw [hs2]

/-- C2 witness: the three containment/propagation behaviors at concrete
scripts — first-call failure propagates, in-loop failure is surfaced as the
round-1 error text, forced-final failure propagates. -/
theorem c2_witness :
    (generate_response true true tmOk c2FirstScript "q").result = Except.error "boom"
    ∧ (generate_response true true tmOk c2LoopScript "q").result
        = Except.ok ("Error during tool execution round 1: " ++ "boom")
    ∧ (generate_response true true tmOk c2Script "q").result = Except.error "boom" :=
  ⟨(c2_amended_error_containment tmOk "q").1 c2FirstScript "boom" true true rfl,
   (c2_amended_error_containment tmOk "q").2.1 c2LoopScript exToolResp "boom"
     rfl rfl (by decide) rfl,
   (c2_amended_error_containment tmOk "q").2.2 c2Script exToolResp exToolResp "boom"
     rfl rfl (by decide) rfl rfl (by decide) rfl⟩

/-- `execBlock` tags its result with the block's call id in both the success
and the failure case. -/
theorem execBlock_id (tm : ToolMgr) (cb : ContentBlock) :
    (execBlock tm cb).tool_use_id = cb.id := by
  unfold execBlock
  cases tm cb.name cb.input <;> rfl

/-- C3 counterexample: a tool-use block named `search_course_content` whose
execution raises `boom` produces the result string
`"Tool execution failed: boom"`, which does not contain the tool's name —
refuting that the result string embeds the tool's name context. -/
theorem c3_counterexample :
    execute_tool_round tmRaise exToolResp
      = some [{ tool_use_id := "tool_1", content := "Tool execution failed: boom" }]
    ∧ exToolBlock.name = "search_course_content"
    ∧ strContains "Tool execution failed: boom" "search_course_content" = false := by
  refine ⟨rfl, rfl, ?_⟩
  decide

/-- C3 (amended): a tool-use block whose execution raises is converted to a
tool-result string `"Tool execution failed: <msg>"` — containing the fixed
"execution failed" marker and the original exception message, but not the
tool's name — tagged with the block's call id, and the round continues with
the remaining blocks (one result per tool-use block regardless of
failures). -/
theorem c3_amended_failure_result (tm : ToolMgr) (r : ModelResponse) (rs : List ToolResult)
    (h : execute_tool_round tm r = some rs) :
    rs.length = (toolUseBlocks r).length
    ∧ ∀ i (hb : i < (toolUseBlocks r).length) e,
        tm ((toolUseBlocks r).get ⟨i, hb⟩).name ((toolUseBlocks r).get ⟨i, hb⟩).input
          = Except.error e →
        rs.get? i = some { tool_use_id := ((toolUseBlocks r).get ⟨i, hb⟩).id,
                           content := "Tool execution failed: " ++ e } := by
  rw [execute_tool_round_eq] at h
  by_cases hb0 : toolUseBlocks r = []
  · rw [if_pos hb0] at h
    exact absurd h (by simp)
  · rw [if_neg hb0] at h
    have hrs : rs = (toolUseBlocks r).map (execBlock tm) := by
      injection h with h'
      exact h'.symm
    subst hrs
    refine ⟨List.length_map _ _, ?_⟩
    intro i hb e hte
    rw [List.get?_map, List.get?_eq_get hb]
    simp only [Option.map_some']
    unfold execBlock
    rw [hte]

/-- C3 witness: on the concrete raising tool manager the single block yields
one result whose string is the marker plus the message, tagged with the
block's id. -/
theorem c3_witness :
    ([{ tool_use_id := "tool_1", content := "Tool execution failed: boom" }]
        : List ToolResult).length = (toolUseBlocks exToolResp).length
    ∧ ([{ tool_use_id := "tool_1", content := "Tool execution failed: boom" }]
        : List ToolResult).get? 0
        = some { tool_use_id := "tool_1", content := "Tool execution failed: " ++ "boom" } :=
  ⟨(c3_amended_failure_result tmRaise exToolResp
      [{ tool_use_id := "tool_1", content := "Tool execution failed: boom" }] rfl).1,
   (c3_amended_failure_result tmRaise exToolResp
      [{ tool_use_id := "tool_1", content := "Tool execution failed: boom" }] rfl).2
      0 (by decide) "boom" rfl⟩

/-- C6: in a round, every tool-use block of the response is executed, in the
order the blocks were emitted (the round's results are exactly the in-order
map over the tool-use blocks), each result is tagged with its block's call
id, and the round appends all its results to the conversation as one single
combined turn. -/
theorem c6_round_order_one_turn (tm : ToolMgr) (script : ModelScript)
    (fuel roundCount callIdx : Nat) (msgs : List Message) (calls : List Bool)
    (rounds : List (List (String × String))) (current : ModelResponse)
    (h1 : current.stop_reason = "tool_use") (h2 : toolUseBlocks current ≠ []) :
    execute_tool_round tm current = some ((toolUseBlocks current).map (execBlock tm))
    ∧ (∀ i (hb : i < (toolUseBlocks current).length),
        (((toolUseBlocks current).map (execBlock tm)).get? i).map
            (fun tr => tr.tool_use_id)
          = some ((toolUseBlocks current).get ⟨i, hb⟩).id)
    ∧ ∃ rest,
        (toolLoop tm script (fuel + 1) roundCount callIdx msgs calls rounds current).messages
          = msgs ++ [Message.assistant current.content,
              Message.toolResults ((toolUseBlocks current).map (execBlock tm))] ++ rest := by
  have he : execute_tool_round tm current
      = some ((toolUseBlocks current).map (execBlock tm)) := by
    rw [execute_tool_round_eq, if_neg h2]
  refine ⟨he, ?_, ?_⟩
  · intro i hb
    rw [List.get?_map, List.get?_eq_get hb]
    simp [execBlock_id]
  · rw [toolLoop_succ, if_pos h1, he]
    dsimp only
    by_cases hf : fuel = 0
    · rw [if_pos hf, finalCall_messages]
      exact ⟨[], by simp⟩
    · rw [if_neg hf]
      cases hs : script callIdx with
      | error e => exact ⟨[], by simp⟩
      | ok next =>
          dsimp only
          by_cases hn : next.stop_reason ≠ "tool_use"
          · rw [if_pos hn]
            exact ⟨[], by simp⟩
          · rw [if_neg hn]
            obtain ⟨r2, hr2⟩ := toolLoop_messages_mono tm script fuel (roundCount + 1)
              (callIdx + 1)
              (msgs ++ [Message.assistant current.content]
                ++ [Message.toolResults ((toolUseBlocks current).map (execBlock tm))])
              (calls ++ [true]) (rounds ++ [roundExecs current]) next
            exact ⟨r2, by rw [hr2]; simp⟩

/-- C6 witness: a concrete round on the one-block tool-use response — the
round's result list is the in-order execution of the block, tagged with
`tool_1`, and the conversation gains the assistant turn plus one combined
results turn. -/
theorem c6_witness :
    execute_tool_round tmOk exToolResp
      = some ((toolUseBlocks exToolResp).map (execBlock tmOk))
    ∧ (∀ i (hb : i < (toolUseBlocks exToolResp).length),
        (((toolUseBlocks exToolResp).map (execBlock tmOk)).get? i).map
            (fun tr => tr.tool_use_id)
          = some ((toolUseBlocks exToolResp).get ⟨i, hb⟩).id)
    ∧ ∃ rest,
        (toolLoop tmOk exScript (1 + 1) 0 1 [Message.user "w"] [true] [] exToolResp).messages
          = [Message.user "w"] ++ [Message.assistant exToolResp.content,
              Message.toolResults ((toolUseBlocks exToolResp).map (execBlock tmOk))]
            ++ rest :=
  c6_round_order_one_turn tmOk exScript 1 0 1 [Message.user "w"] [true] [] exToolResp
    rfl (by decide)

/-- C7: a model response flagged as requesting tool use but containing no
tool-use blocks aborts the round loop — the run makes no further model call
and returns the fixed "issue while using the available tools" message. -/
theorem c7_no_tool_blocks_aborts (tools : Bool) (tm : ToolMgr) (script : ModelScript)
    (query : String) (resp : ModelResponse)
    (h0 : script 0 = Except.ok resp) (h1 : resp.stop_reason = "tool_use")
    (h2 : toolUseBlocks resp = []) :
    (generate_response tools true tm script query).calls = [tools]
    ∧ (generate_response tools true tm script query).rounds = []
    ∧ (generate_response tools true tm script query).result
        = Except.ok "I encountered an issue while using the available tools." := by
  have he : execute_tool_round tm resp = none := by
    rw [execute_tool_round_eq, if_pos h2]
  have hcond : resp.stop_reason = "tool_use" ∧ (true : Bool) = true := ⟨h1, rfl⟩
  have key : generate_response tools true tm script query =
      { calls := [tools], rounds := [],
        messages := [Message.user query, Message.assistant resp.content],
        result := Except.ok "I encountered an issue while using the available tools." } := by
    unfold generate_response handle_tool_execution
    rw [h0]
    dsimp only
    rw [if_pos hcond]
    rw [show (2 : Nat) = 1 + 1 from rfl, toolLoop_succ, if_pos h1, he]
    rfl
  exact ⟨by rw [key], by rw [key], by rw [key]⟩

/-- C7 witness: the concrete block-less tool-use-flagged response yields one
model call, zero rounds and the fixed abort message. -/
theorem c7_witness :
    (generate_response true true tmOk exNoBlockScript "q").calls = [true]
    ∧ (generate_response true true tmOk exNoBlockScript "q").rounds = []
    ∧ (generate_response true true tmOk exNoBlockScript "q").result
        = Except.ok "I encountered an issue while using the available tools." :=
  c7_no_tool_blocks_aborts true tmOk exNoBlockScript "q" exNoBlockResp rfl rfl (by decide)

/-- C10: a first response flagged `tool_use` with `tool_manager = None`
triggers no tool dispatch — no tool round runs, no further model call is
made, and the text of the response's first content block is returned. -/
theorem c10_tool_use_without_manager (tools : Bool) (tm : ToolMgr) (script : ModelScript)
    (query : String) (resp : ModelResponse) (cb : ContentBlock) (rest : List ContentBlock)
    (h0 : script 0 = Except.ok resp) (h1 : resp.stop_reason = "tool_use")
    (h2 : resp.content = cb :: rest) :
    (generate_response tools false tm script query).calls = [tools]
    ∧ (generate_response tools false tm script query).rounds = []
    ∧ (generate_response tools false tm script query).result = Except.ok cb.text := by
  have key : generate_response tools false tm script query =
      { calls := [tools], rounds := [], messages := [Message.user query],
        result := Except.ok cb.text } := by
    unfold generate_response
    rw [h0]
    dsimp only
    rw [if_neg (by simp)]
    unfold headText
    rw [h2]
  exact ⟨by rw [key], by rw [key], by rw [key]⟩

/-- C10 witness: the concrete tool-use response with a null tool manager
yields one model call, zero rounds and the first block's text. -/
theorem c10_witness :
    (generate_response true false tmOk exScript "q").calls = [true]
    ∧ (generate_response true false tmOk exScript "q").rounds = []
    ∧ (generate_response true false tmOk exScript "q").result
        = Except.ok exToolBlock.text :=
  c10_tool_use_without_manager true tmOk exScript "q" exToolResp exToolBlock [] rfl rfl rfl

/-- The left fold of the nearest-neighbor scan returns an element of the
candidate list whose distance to the query is minimal. -/
theorem foldl_nearest (distT : String → String → Nat) (q : String) :
    ∀ (ts : List String) (t : String),
      (ts.foldl (fun best u => if distT q u < distT q best then u else best) t) ∈ t :: ts
      ∧ ∀ u ∈ t :: ts,
          distT q (ts.foldl (fun best u => if distT q u < distT q best then u else best) t)
            ≤ distT q u := by
  intro ts
  induction ts with
  | nil =>
      intro t
      refine ⟨by simp, ?_⟩
      intro u hu
      rw [List.foldl_nil]
      rcases List.mem_singleton.mp hu with rfl
      exact le_refl _
  | cons a as ih =>
      intro t
      by_cases hc : distT q a < distT q t
      · rw [List.foldl_cons]
        rw [if_pos hc]
        obtain ⟨hmem, hle⟩ := ih a
        refine ⟨List.mem_cons_of_mem t hmem, ?_⟩
        intro u hu
        rcases List.mem_cons.mp hu with rfl | hu'
        · exact le_trans (hle a (List.mem_cons_self a as)) (le_of_lt hc)
        · exact hle u hu'
      · rw [List.foldl_cons]
        rw [if_neg hc]
        obtain ⟨hmem, hle⟩ := ih t
        refine ⟨?_, ?_⟩
        · rcases List.mem_cons.mp hmem with hh | hh
          · exact List.mem_cons.mpr (Or.inl hh)
          · exact List.mem_cons_of_mem t (List.mem_cons_of_mem a hh)
        · intro u hu
          rcases List.mem_cons.mp hu with rfl | hu'
          · exact hle u (List.mem_cons_self u as)
          · rcases List.mem_cons.mp hu' with rfl | hu''
            · exact le_trans (hle t (List.mem_cons_self t as)) (Nat.le_of_not_lt hc)
            · exact hle u (List.mem_cons_of_mem t hu'')

/-- C4: `resolve_course_name` returns `none` only on an empty catalog; on a
non-empty catalog every query resolves to a nearest catalog title (no
similarity threshold), and `search` with any course name against a non-empty
catalog never produces an error result. -/
theorem c4_nearest_neighbor_total (distT distD : String → String → Nat)
    (catalog : List String) (store : List CourseChunk) (hne : catalog ≠ []) :
    (∀ q, ∃ t, resolve_course_name distT catalog q = some t ∧ t ∈ catalog
        ∧ ∀ u ∈ catalog, distT q t ≤ distT q u)
    ∧ (∀ query name lesson limit,
        (search distT distD catalog store query (some name) lesson limit).error = none)
    ∧ (∀ (distT2 : String → String → Nat) (q : String),
        resolve_course_name distT2 [] q = none) := by
  obtain ⟨t, ts, rfl⟩ := List.exists_cons_of_ne_nil hne
  refine ⟨?_, ?_, ?_⟩
  · intro q
    exact ⟨_, rfl, (foldl_nearest distT q ts t).1, (foldl_nearest distT q ts t).2⟩
  · intro query name lesson limit
    simp [search, resolve_course_name, runQuery]
  · intro distT2 q
    rfl

/-- C4 witness: on a one-title catalog every query resolves to that title
and a search with an unrelated course name yields no error. -/
theorem c4_witness :
    (∀ q, ∃ t, resolve_course_name dEx ["Course A"] q = some t ∧ t ∈ ["Course A"]
        ∧ ∀ u ∈ ["Course A"], dEx q t ≤ dEx q u)
    ∧ (∀ query name lesson limit,
        (search dEx dEx ["Course A"] [] query (some name) lesson limit).error = none)
    ∧ (∀ (distT2 : String → String → Nat) (q : String),
        resolve_course_name distT2 [] q = none) :=
  c4_nearest_neighbor_total dEx dEx ["Course A"] [] (by decide)

/-- C5: a search whose course name fails to resolve returns the
`SearchResults` value with error `"No course found matching '<name>'"` and
all three sequences empty (a result state, not an exception — the function
is total), and every `SearchResults` produced by `search` has its three
parallel sequences of equal length. -/
theorem c5_resolution_failure_result (distT distD : String → String → Nat)
    (catalog : List String) (store : List CourseChunk) :
    (∀ query name lesson limit,
        resolve_course_name distT catalog name = none →
        search distT distD catalog store query (some name) lesson limit
          = { documents := [], metadata := [], distances := [],
              error := some ("No course found matching '" ++ name ++ "'") })
    ∧ (∀ query course_name lesson limit,
        ((search distT distD catalog store query course_name lesson limit).documents.length
            = (search distT distD catalog store query course_name lesson limit).metadata.length)
        ∧ ((search distT distD catalog store query course_name lesson limit).metadata.length
            = (search distT distD catalog store query course_name lesson limit).distances.length)) := by
  constructor
  · intro query name lesson limit hres
    simp [search, hres]
  · intro query course_name lesson limit
    cases course_name with
    | none => simp [search, runQuery]
    | some name =>
        cases hres : resolve_course_name distT catalog name with
        | none => simp [search, hres]
        | some title => simp [search, hres, runQuery]

/-- C5 witness: against the empty catalog, a named search returns the
error-state result with empty, equal-length sequences. -/
theorem c5_witness :
    search dEx dEx [] [] "q" (some "Missing") none 5
      = { documents := [], metadata := [], distances := [],
          error := some ("No course found matching '" ++ "Missing" ++ "'") }
    ∧ (search dEx dEx [] [] "q" (some "Missing") none 5).documents.length
        = (search dEx dEx [] [] "q" (some "Missing") none 5).metadata.length :=
  ⟨(c5_resolution_failure_result dEx dEx [] []).1 "q" "Missing" none 5 rfl,
   ((c5_resolution_failure_result dEx dEx [] []).2 "q" (some "Missing") none 5).1⟩

/-- C8: on a successful non-empty search, the Content Search Tool stores as
its last-sources exactly one Source per returned document, in document
order, each built from that result's metadata by resolving the lesson link
(or the course link when the lesson number is absent) via the store's link
lookups. -/
theorem c8_one_source_per_document (gll : String → Nat → Option String)
    (gcl : String → Option String) (prev : List Source)
    (course_name : Option String) (lesson_number : Option Nat)
    (results : SearchResults)
    (herr : results.error = none) (hne : results.documents ≠ [])
    (hlen : results.metadata.length = results.documents.length) :
    (CourseSearchTool_execute gll gcl prev course_name lesson_number results).2
        = results.metadata.map (buildSource gll gcl)
    ∧ (CourseSearchTool_execute gll gcl prev course_name lesson_number results).2.length
        = results.documents.length
    ∧ ∀ i (hb : i < results.metadata.length),
        (CourseSearchTool_execute gll gcl prev course_name lesson_number results).2.get? i
          = some (buildSource gll gcl (results.metadata.get ⟨i, hb⟩))
        ∧ ((∃ n, (results.metadata.get ⟨i, hb⟩).lesson_number = some n
              ∧ buildSource gll gcl (results.metadata.get ⟨i, hb⟩)
                = { text := (results.metadata.get ⟨i, hb⟩).course_title
                      ++ " - Lesson " ++ toString n,
                    link := gll (results.metadata.get ⟨i, hb⟩).course_title n })
          ∨ ((results.metadata.get ⟨i, hb⟩).lesson_number = none
              ∧ buildSource gll gcl (results.metadata.get ⟨i, hb⟩)
                = { text := (results.metadata.get ⟨i, hb⟩).course_title,
                    link := gcl (results.metadata.get ⟨i, hb⟩).course_title })) := by
  have hout : (CourseSearchTool_execute gll gcl prev course_name lesson_number results).2
      = results.metadata.map (buildSource gll gcl) := by
    unfold CourseSearchTool_execute
    rw [herr]
    dsimp only
    rw [if_neg hne]
  refine ⟨hout, by rw [hout, List.length_map, hlen], ?_⟩
  intro i hb
  constructor
  · rw [hout, List.get?_map, List.get?_eq_get hb]
    simp
  · cases hm : (results.metadata.get ⟨i, hb⟩).lesson_number with
    | some n =>
        left
        exact ⟨n, rfl, by unfold buildSource; rw [hm]⟩
    | none =>
        right
        exact ⟨rfl, by unfold buildSource; rw [hm]⟩

/-- C8 witness: on the concrete two-document result (one hit with a lesson
number, one without) the stored sources are the two built records, in
order. -/
theorem c8_witness :
    (CourseSearchTool_execute gllEx gclEx [] none none exResults).2
        = exResults.metadata.map (buildSource gllEx gclEx)
    ∧ (CourseSearchTool_execute gllEx gclEx [] none none exResults).2.length
        = exResults.documents.length
    ∧ ∀ i (hb : i < exResults.metadata.length),
        (CourseSearchTool_execute gllEx gclEx [] none none exResults).2.get? i
          = some (buildSource gllEx gclEx (exResults.metadata.get ⟨i, hb⟩))
        ∧ ((∃ n, (exResults.metadata.get ⟨i, hb⟩).lesson_number = some n
              ∧ buildSource gllEx gclEx (exResults.metadata.get ⟨i, hb⟩)
                = { text := (exResults.metadata.get ⟨i, hb⟩).course_title
                      ++ " - Lesson " ++ toString n,
                    link := gllEx (exResults.metadata.get ⟨i, hb⟩).course_title n })
          ∨ ((exResults.metadata.get ⟨i, hb⟩).lesson_number = none
              ∧ buildSource gllEx gclEx (exResults.metadata.get ⟨i, hb⟩)
                = { text := (exResults.metadata.get ⟨i, hb⟩).course_title,
                    link := gclEx (exResults.metadata.get ⟨i, hb⟩).course_title })) :=
  c8_one_source_per_document gllEx gclEx [] none none exResults rfl (by decide) rfl

/-- Folding append of each tool's sources over an accumulator splits into
the accumulator followed by the flat concatenation. -/
theorem foldl_append_sources (l : List ToolState) :
    ∀ acc : List Source,
      l.foldl (fun a t => a ++ t.last_sources) acc
        = acc ++ (l.map (fun t => t.last_sources)).join := by
  induction l with
  | nil => intro acc; simp
  | cons t ts ih =>
      intro acc
      rw [List.foldl_cons, ih]
      simp

/-- C9: `get_last_sources` returns the concatenation of every registered
tool's current sources; after `reset_sources` every registered tool's source
list is empty, and `get_last_sources` right after `reset_sources` returns
the empty sequence. -/
theorem c9_drain_then_reset (tools : List ToolState) :
    get_last_sources tools = (tools.map (fun t => t.last_sources)).join
    ∧ (∀ t ∈ reset_sources tools, t.last_sources = [])
    ∧ get_last_sources (reset_sources tools) = [] := by
  refine ⟨?_, ?_, ?_⟩
  · unfold get_last_sources
    rw [foldl_append_sources]
    simp
  · intro t ht
    obtain ⟨t0, _, rfl⟩ := List.mem_map.mp ht
    rfl
  · unfold get_last_sources reset_sources
    rw [foldl_append_sources]
    rw [List.map_map]
    have hcomp : ((fun t : ToolState => t.last_sources)
          ∘ fun t : ToolState => { t with last_sources := [] })
        = fun _ => ([] : List Source) := rfl
    rw [hcomp]
    have hjoin : ∀ (l : List ToolState), ((l.map (fun _ => ([] : List Source))).join) = [] := by
      intro l
      induction l with
      | nil => rfl
      | cons a as ih => simp [ih]
    rw [hjoin]
    rfl

/-- C9 witness: on the concrete two-tool registry, get-then-reset yields the
two sources in registry order and a subsequent read yields the empty
sequence. -/
theorem c9_witness :
    get_last_sources exTools = (exTools.map (fun t => t.last_sources)).join
    ∧ (∀ t ∈ reset_sources exTools, t.last_sources = [])
    ∧ get_last_sources (reset_sources exTools) = [] :=
  c9_drain_then_reset exTools

end RagCore
